import Mathlib

/-!
Verification of the steady-state flow solver.

Shallow embedding conventions:
* JS `number` is embedded as `ℚ`; grid indices and dimensions as `ℤ`.
* A `number[][]` field of a grid is embedded as a total function
  `ℤ → ℤ → ℚ`; the algorithms only ever read indices inside the
  `height × width` extent, so values outside it are irrelevant junk
  (freshly allocated arrays make them `0` / `false`).
* In-place mutation loops whose cell updates are independent are embedded
  as pointwise function updates guarded by the loop ranges; sequential
  loops over input lists (forces, targets) are embedded as `List.foldl`.
* A JS function that can `throw` is embedded as `Except JsError`.
* For the aliasing claim about `copySimulationGrid`, a separate explicit
  heap model (`Heap`, `GridRefs`) embeds arrays as references into a store.
-/

namespace FlowSim

/-- Errors a construction call can raise: the JS `RangeError` thrown by
`Array(n)` for a negative length, and explicit `throw new Error(msg)`. -/
inductive JsError where
  | rangeError : JsError
  | thrown : String → JsError
deriving DecidableEq

/-- Tests whether an `Except` value is a success. -/
def exceptIsOk {ε α : Type _} : Except ε α → Bool
  | .ok _ => true
  | .error _ => false

/-- Embedding of the `SimulationGrid` interface from src. -/
structure SimulationGrid where
  width : ℤ
  height : ℤ
  pressure : ℤ → ℤ → ℚ
  u : ℤ → ℤ → ℚ
  v : ℤ → ℤ → ℚ
  isObstacle : ℤ → ℤ → Bool

/-- Embedding of the `ForceVector` interface from src. -/
structure ForceVector where
  x : ℚ
  y : ℚ
  fx : ℚ
  fy : ℚ

/-- Embedding of the `TargetVelocity` interface from src. -/
structure TargetVelocity where
  x : ℚ
  y : ℚ
  u : ℚ
  v : ℚ
  weight : ℚ

/-- Embedding of the `SimulationConfig` interface from src.  The
`iterations` field is only ever used as a loop bound, so it is a `ℕ`. -/
structure SimulationConfig where
  relaxationFactor : ℚ
  pressureImpact : ℚ
  timeStep : ℚ
  viscosity : ℚ
  iterations : ℕ

/-- Embedding of `DEFAULT_SIMULATION_CONFIG` from src. -/
def DEFAULT_SIMULATION_CONFIG : SimulationConfig :=
  { relaxationFactor := 1/5, pressureImpact := 1/10, timeStep := 1/10,
    viscosity := 1/100, iterations := 20 }

/-- The grid value built by the body of `createSimulationGrid`: four
`height × width` arrays of zeros / `false`. -/
def mkSimulationGrid (width height : ℤ) : SimulationGrid :=
  { width := width, height := height,
    pressure := fun _ _ => 0,
    u := fun _ _ => 0,
    v := fun _ _ => 0,
    isObstacle := fun _ _ => false }

/-- Embedding of `createSimulationGrid` from src.  The source performs no
dimension validation; the only failure is the JS `RangeError` raised by
`Array(n)` for a negative length.  `Array(height)` is evaluated first;
the inner `Array(width)` is only evaluated inside `.map`, hence only when
`height > 0`. -/
def createSimulationGrid (width height : ℤ) : Except JsError SimulationGrid :=
  if height < 0 then .error .rangeError
  else if 0 < height ∧ width < 0 then .error .rangeError
  else .ok (mkSimulationGrid width height)

/-- Embedding of `createGridFromMask` from src.  The obstacle copy loop
writes `mask[y][x]` for `y < height`, `x < width`; a JS `undefined` read
from a ragged short row behaves as `false` in every later boolean use,
embedded here via `getD _ false`. -/
def createGridFromMask (obstacleMask : List (List Bool)) : Except JsError SimulationGrid :=
  if obstacleMask.length = 0 ∨ (obstacleMask.headD []).length = 0 then
    .error (.thrown "Obstacle mask cannot be empty")
  else
    let height : ℤ := obstacleMask.length
    let width : ℤ := (obstacleMask.headD []).length
    .ok { mkSimulationGrid width height with
          isObstacle := fun y x =>
            if 0 ≤ y ∧ y < height ∧ 0 ≤ x ∧ x < width then
              (obstacleMask.getD y.toNat []).getD x.toNat false
            else false }

/-- Embedding of `copySimulationGrid` from src: a fresh grid from
`createSimulationGrid` whose cells inside the `height × width` extent are
overwritten with the source values (value-level view; the aliasing
behaviour is modelled separately in the heap model below). -/
def copySimulationGrid (grid : SimulationGrid) : SimulationGrid :=
  { width := grid.width, height := grid.height,
    pressure := fun y x =>
      if 0 ≤ y ∧ y < grid.height ∧ 0 ≤ x ∧ x < grid.width then grid.pressure y x else 0,
    u := fun y x =>
      if 0 ≤ y ∧ y < grid.height ∧ 0 ≤ x ∧ x < grid.width then grid.u y x else 0,
    v := fun y x =>
      if 0 ≤ y ∧ y < grid.height ∧ 0 ≤ x ∧ x < grid.width then grid.v y x else 0,
    isObstacle := fun y x =>
      if 0 ≤ y ∧ y < grid.height ∧ 0 ≤ x ∧ x < grid.width then grid.isObstacle y x else false }

/-- Embedding of `convertForceVectorsToTargetVelocities` from src. -/
def convertForceVectorsToTargetVelocities (forces : List ForceVector) (weight : ℚ) :
    List TargetVelocity :=
  forces.map fun force =>
    { x := force.x, y := force.y, u := force.fx, v := force.fy, weight := weight }

/-- Embedding of `bilinearInterpolate` from src. -/
def bilinearInterpolate (field : ℤ → ℤ → ℚ) (x y : ℚ) (width height : ℤ) : ℚ :=
  let clampedX := max (1/2) (min ((width : ℚ) - 3/2) x)
  let clampedY := max (1/2) (min ((height : ℚ) - 3/2) y)
  let x0 := ⌊clampedX⌋
  let y0 := ⌊clampedY⌋
  let x1 := x0 + 1
  let y1 := y0 + 1
  let sx := clampedX - (x0 : ℚ)
  let sy := clampedY - (y0 : ℚ)
  let val00 := field y0 x0
  let val10 := field y0 x1
  let val01 := field y1 x0
  let val11 := field y1 x1
  let val0 := val00 * (1 - sx) + val10 * sx
  let val1 := val01 * (1 - sx) + val11 * sx
  val0 * (1 - sy) + val1 * sy

/-- Loop range of the interior passes: `for y in [1, height-1), x in [1, width-1)`. -/
def interiorCell (grid : SimulationGrid) (y x : ℤ) : Prop :=
  1 ≤ y ∧ y < grid.height - 1 ∧ 1 ≤ x ∧ x < grid.width - 1

instance (grid : SimulationGrid) (y x : ℤ) : Decidable (interiorCell grid y x) := by
  unfold interiorCell
  infer_instance

/-- Effect of one iteration of the `for (const force of forces)` loop of
`applyForces` from src. -/
def applyForce1 (grid : SimulationGrid) (force : ForceVector) : SimulationGrid :=
  let gx : ℤ := ⌊force.x * (grid.width : ℚ)⌋
  let gy : ℤ := ⌊force.y * (grid.height : ℚ)⌋
  if gx < 0 ∨ grid.width ≤ gx ∨ gy < 0 ∨ grid.height ≤ gy ∨ grid.isObstacle gy gx = true then
    grid
  else
    let scaledFx := force.fx * (grid.width : ℚ)
    let scaledFy := force.fy * (grid.height : ℚ)
    { grid with
      u := fun y x => if y = gy ∧ x = gx then grid.u y x + scaledFx else grid.u y x,
      v := fun y x => if y = gy ∧ x = gx then grid.v y x + scaledFy else grid.v y x }

/-- Embedding of `applyForces` from src. -/
def applyForces (grid : SimulationGrid) (forces : List ForceVector) : SimulationGrid :=
  forces.foldl applyForce1 grid

/-- Embedding of `applyAdvection` from src: two-pass semi-Lagrangian
backtrace, so every cell reads the pre-pass fields. -/
def applyAdvection (grid : SimulationGrid) (timeStep : ℚ) : SimulationGrid :=
  { grid with
    u := fun y x =>
      if interiorCell grid y x ∧ grid.isObstacle y x = false then
        bilinearInterpolate grid.u
          ((x : ℚ) - grid.u y x * timeStep) ((y : ℚ) - grid.v y x * timeStep)
          grid.width grid.height
      else grid.u y x,
    v := fun y x =>
      if interiorCell grid y x ∧ grid.isObstacle y x = false then
        bilinearInterpolate grid.v
          ((x : ℚ) - grid.u y x * timeStep) ((y : ℚ) - grid.v y x * timeStep)
          grid.width grid.height
      else grid.v y x }

/-- Embedding of `applyViscosity` from src: short-circuit below `1e-6`,
otherwise a two-pass discrete-Laplacian diffusion. -/
def applyViscosity (grid : SimulationGrid) (viscosity : ℚ) : SimulationGrid :=
  if viscosity < 1/1000000 then grid
  else
    { grid with
      u := fun y x =>
        if interiorCell grid y x ∧ grid.isObstacle y x = false then
          grid.u y x + viscosity *
            (grid.u y (x+1) + grid.u y (x-1) + grid.u (y+1) x + grid.u (y-1) x - 4 * grid.u y x)
        else grid.u y x,
      v := fun y x =>
        if interiorCell grid y x ∧ grid.isObstacle y x = false then
          grid.v y x + viscosity *
            (grid.v y (x+1) + grid.v y (x-1) + grid.v (y+1) x + grid.v (y-1) x - 4 * grid.v y x)
        else grid.v y x }

/-- Embedding of `updatePressure` from src.  Each cell update reads only
`u`, `v` (never neighbouring pressures), so the in-place loop is a
pointwise update. -/
def updatePressure (grid : SimulationGrid) (relaxationFactor : ℚ) : SimulationGrid :=
  { grid with
    pressure := fun y x =>
      if interiorCell grid y x ∧ grid.isObstacle y x = false then
        grid.pressure y x - relaxationFactor *
          (grid.u y (x+1) - grid.u y (x-1) + grid.v (y+1) x - grid.v (y-1) x)
      else grid.pressure y x }

/-- Embedding of `updateVelocity` from src.  Each cell update reads only
`pressure`, so the in-place loop is a pointwise update. -/
def updateVelocity (grid : SimulationGrid) (pressureImpact : ℚ) : SimulationGrid :=
  { grid with
    u := fun y x =>
      if interiorCell grid y x ∧ grid.isObstacle y x = false then
        grid.u y x - pressureImpact * (grid.pressure y (x+1) - grid.pressure y (x-1))
      else grid.u y x,
    v := fun y x =>
      if interiorCell grid y x ∧ grid.isObstacle y x = false then
        grid.v y x - pressureImpact * (grid.pressure (y+1) x - grid.pressure (y-1) x)
      else grid.v y x }

/-- Embedding of `applyBoundaryConditions` from src: full-grid pass
zeroing the velocity of obstacle and outermost-ring cells. -/
def applyBoundaryConditions (grid : SimulationGrid) : SimulationGrid :=
  { grid with
    u := fun y x =>
      if (0 ≤ y ∧ y < grid.height ∧ 0 ≤ x ∧ x < grid.width) ∧
         (grid.isObstacle y x = true ∨ x = 0 ∨ x = grid.width - 1 ∨
           y = 0 ∨ y = grid.height - 1) then 0
      else grid.u y x,
    v := fun y x =>
      if (0 ≤ y ∧ y < grid.height ∧ 0 ≤ x ∧ x < grid.width) ∧
         (grid.isObstacle y x = true ∨ x = 0 ∨ x = grid.width - 1 ∨
           y = 0 ∨ y = grid.height - 1) then 0
      else grid.v y x }

/-- Effect of one iteration of the `for (const target of targetVelocities)`
loop of `applyTargetVelocities` from src. -/
def applyTarget1 (grid : SimulationGrid) (target : TargetVelocity) : SimulationGrid :=
  let gx : ℤ := ⌊target.x * (grid.width : ℚ)⌋
  let gy : ℤ := ⌊target.y * (grid.height : ℚ)⌋
  if gx < 1 ∨ grid.width - 1 ≤ gx ∨ gy < 1 ∨ grid.height - 1 ≤ gy ∨
     grid.isObstacle gy gx = true then
    grid
  else
    let scaledU := target.u * (grid.width : ℚ)
    let scaledV := target.v * (grid.height : ℚ)
    { grid with
      u := fun y x =>
        if y = gy ∧ x = gx then (1 - target.weight) * grid.u y x + target.weight * scaledU
        else grid.u y x,
      v := fun y x =>
        if y = gy ∧ x = gx then (1 - target.weight) * grid.v y x + target.weight * scaledV
        else grid.v y x }

/-- Embedding of `applyTargetVelocities` from src. -/
def applyTargetVelocities (grid : SimulationGrid) (targetVelocities : List TargetVelocity) :
    SimulationGrid :=
  targetVelocities.foldl applyTarget1 grid

/-- Embedding of `runSimulationStep` from src: copy, then the fixed
pipeline forces → advection → viscosity → pressure → velocity → targets →
boundary conditions. -/
def runSimulationStep (grid : SimulationGrid) (forces : List ForceVector)
    (targetVelocities : List TargetVelocity) (config : SimulationConfig) : SimulationGrid :=
  applyBoundaryConditions
    (applyTargetVelocities
      (updateVelocity
        (updatePressure
          (applyViscosity
            (applyAdvection (applyForces (copySimulationGrid grid) forces) config.timeStep)
            config.viscosity)
          config.relaxationFactor)
        config.pressureImpact)
      targetVelocities)

/-- The `for (let i = 0; i < config.iterations; i++)` loop of
`runSteadyStateSimulation` from src. -/
def stepsLoop (forces : List ForceVector) (targetVelocities : List TargetVelocity)
    (config : SimulationConfig) : ℕ → SimulationGrid → SimulationGrid
  | 0, g => g
  | n + 1, g => stepsLoop forces targetVelocities config n
      (runSimulationStep g forces targetVelocities config)

/-- Embedding of `runSteadyStateSimulation` from src. -/
def runSteadyStateSimulation (grid : SimulationGrid) (forces : List ForceVector)
    (targetVelocities : List TargetVelocity) (config : SimulationConfig) : SimulationGrid :=
  stepsLoop forces targetVelocities config config.iterations (copySimulationGrid grid)

/-! Interactive session loop, embedded from the `runSimulation` closure of
`useSimulation` in use-simulation.ts. -/

/-- Embedding of the `VelocityField` snapshots the session loop compares. -/
structure VelocityField where
  u : ℤ → ℤ → ℚ
  v : ℤ → ℤ → ℚ

/-- The velocity snapshot `{u: grid.u, v: grid.v}` taken after a step. -/
def velocityFieldOf (g : SimulationGrid) : VelocityField := { u := g.u, v := g.v }

/-- Embedding of the per-step `maxDiff` computation of the session loop:
the maximum absolute per-cell difference over both `u` and `v`, starting
from `0`. -/
def maxVelocityDiff (g : SimulationGrid) (prev : VelocityField) : ℚ :=
  let overU := (List.range g.height.toNat).foldl (fun acc y =>
    (List.range g.width.toNat).foldl (fun acc2 x =>
      max acc2 |g.u (y : ℤ) (x : ℤ) - prev.u (y : ℤ) (x : ℤ)|) acc) 0
  (List.range g.height.toNat).foldl (fun acc y =>
    (List.range g.width.toNat).foldl (fun acc2 x =>
      max acc2 |g.v (y : ℤ) (x : ℤ) - prev.v (y : ℤ) (x : ℤ)|) acc) overU

/-- The `CONVERGENCE_THRESHOLD` constant of the session loop. -/
def CONVERGENCE_THRESHOLD : ℚ := 1/10000

/-- The `MAX_STEPS` safety ceiling of the session loop. -/
def MAX_STEPS : ℕ := 5000

/-- Terminal observation of a session: final grid, number of completed
`runSimulationStep` calls, and whether convergence was declared. -/
structure SessionResult where
  grid : SimulationGrid
  steps : ℕ
  converged : Bool

/-- One interactive step: `runSimulationStep(currentGrid, [], targetVelocities)`
with the implicit `DEFAULT_SIMULATION_CONFIG`, exactly as the session loop
calls it. -/
def sessionStep (targetVelocities : List TargetVelocity) (g : SimulationGrid) : SimulationGrid :=
  runSimulationStep g [] targetVelocities DEFAULT_SIMULATION_CONFIG

/-- Embedding of the `while (steps < MAX_STEPS && !hasReachedConvergence)`
loop of the session (the never-aborted execution): fuel counts the steps
still allowed, `prev` is the stored previous velocity snapshot, `done` the
steps already taken.  Convergence is only checked when a previous snapshot
exists, i.e. from the second step on. -/
def sessionLoop (targetVelocities : List TargetVelocity) :
    ℕ → SimulationGrid → Option VelocityField → ℕ → SessionResult
  | 0, g, _, done => { grid := g, steps := done, converged := false }
  | fuel + 1, g, prev, done =>
    let g2 := sessionStep targetVelocities g
    match prev with
    | none => sessionLoop targetVelocities fuel g2 (some (velocityFieldOf g2)) (done + 1)
    | some p =>
      if maxVelocityDiff g2 p < CONVERGENCE_THRESHOLD then
        { grid := g2, steps := done + 1, converged := true }
      else sessionLoop targetVelocities fuel g2 (some (velocityFieldOf g2)) (done + 1)

/-- Embedding of one interactive session run (never aborted): the force
vectors are converted to target velocities once, up front, then the loop
runs with empty per-step force lists. -/
def runInteractiveSession (grid : SimulationGrid) (forceVectors : List ForceVector)
    (targetWeight : ℚ) : SessionResult :=
  sessionLoop (convertForceVectorsToTargetVelocities forceVectors targetWeight)
    MAX_STEPS grid none 0

/-- The grid after `k` interactive steps from `g0`. -/
def sessionTraj (targetVelocities : List TargetVelocity) (g0 : SimulationGrid) (k : ℕ) :
    SimulationGrid :=
  (sessionStep targetVelocities)^[k] g0

/-- The convergence test the loop evaluates at step `k ≥ 2`: the max
velocity difference between steps `k` and `k-1` is below the threshold. -/
def sessionBelow (targetVelocities : List TargetVelocity) (g0 : SimulationGrid) (k : ℕ) : Prop :=
  maxVelocityDiff (sessionTraj targetVelocities g0 k)
    (velocityFieldOf (sessionTraj targetVelocities g0 (k - 1))) < CONVERGENCE_THRESHOLD

/-! Heap model for the aliasing behaviour of `copySimulationGrid`: a JS
2D array is a reference into a store of mutable arrays.  Only
`createSimulationGrid` and `copySimulationGrid` are re-modelled here,
at the level of reads, writes and allocations. -/

/-- Cell content of a heap array: a number or an obstacle flag. -/
inductive CellValue where
  | num : ℚ → CellValue
  | flag : Bool → CellValue
deriving DecidableEq

/-- Content of one allocated 2D array. -/
abbrev HeapArray := ℕ → ℕ → CellValue

/-- The store: array references are indices into the allocation list. -/
abbrev Heap := List HeapArray

/-- A freshly allocated array, every cell holding `val`. -/
def emptyCells (val : CellValue) : HeapArray := fun _ _ => val

/-- Read `arr[y][x]` through a reference. -/
def heapRead (σ : Heap) (r : ℕ) (y x : ℕ) : CellValue :=
  (σ.getD r (emptyCells (.num 0))) y x

/-- Write `arr[y][x] = val` through a reference (in place). -/
def heapWrite (σ : Heap) (r : ℕ) (y x : ℕ) (val : CellValue) : Heap :=
  σ.set r (fun y2 x2 => if y2 = y ∧ x2 = x then val else (σ.getD r (emptyCells (.num 0))) y2 x2)

/-- Allocate a fresh array, returning the new store and its reference. -/
def heapAlloc (σ : Heap) (val : CellValue) : Heap × ℕ :=
  (σ ++ [emptyCells val], σ.length)

/-- A `SimulationGrid` value at the heap level: dimensions plus the four
array references. -/
structure GridRefs where
  width : ℕ
  height : ℕ
  pressure : ℕ
  u : ℕ
  v : ℕ
  isObstacle : ℕ

/-- The four array references of a grid. -/
def GridRefs.refs (g : GridRefs) : List ℕ := [g.pressure, g.u, g.v, g.isObstacle]

/-- All four references point into the store. -/
def GridRefs.valid (g : GridRefs) (σ : Heap) : Prop :=
  g.pressure < σ.length ∧ g.u < σ.length ∧ g.v < σ.length ∧ g.isObstacle < σ.length

instance (g : GridRefs) (σ : Heap) : Decidable (g.valid σ) := by
  unfold GridRefs.valid
  infer_instance

/-- Heap-level `createSimulationGrid`: allocates four fresh arrays. -/
def createSimulationGridH (width height : ℕ) (σ : Heap) : Heap × GridRefs :=
  let a1 := heapAlloc σ (.num 0)
  let a2 := heapAlloc a1.1 (.num 0)
  let a3 := heapAlloc a2.1 (.num 0)
  let a4 := heapAlloc a3.1 (.flag false)
  (a4.1,
   { width := width, height := height,
     pressure := a1.2, u := a2.2, v := a3.2, isObstacle := a4.2 })

/-- One iteration of the copy loop body of `copySimulationGrid`: copies
the four arrays at one cell, reading the source through the current heap. -/
def copyCell (src dst : GridRefs) (σ : Heap) (cell : ℕ × ℕ) : Heap :=
  let σ1 := heapWrite σ dst.pressure cell.1 cell.2 (heapRead σ src.pressure cell.1 cell.2)
  let σ2 := heapWrite σ1 dst.u cell.1 cell.2 (heapRead σ1 src.u cell.1 cell.2)
  let σ3 := heapWrite σ2 dst.v cell.1 cell.2 (heapRead σ2 src.v cell.1 cell.2)
  heapWrite σ3 dst.isObstacle cell.1 cell.2 (heapRead σ3 src.isObstacle cell.1 cell.2)

/-- The cells `(y, x)` visited by the nested copy loops, in order. -/
def gridCells (height width : ℕ) : List (ℕ × ℕ) :=
  (List.range height).flatMap fun y => (List.range width).map fun x => (y, x)

/-- Heap-level `copySimulationGrid`: a fresh grid from
`createSimulationGridH`, then the cell-by-cell copy loop. -/
def copySimulationGridH (σ : Heap) (grid : GridRefs) : Heap × GridRefs :=
  let created := createSimulationGridH grid.width grid.height σ
  ((gridCells grid.height grid.width).foldl (copyCell grid created.2) created.1, created.2)

/-! Named inputs and state predicates used by the claim theorems. -/

/-- The obstacle-free all-zero 5×5 grid used by the concrete test claims. -/
def zeroGrid5 : SimulationGrid := mkSimulationGrid 5 5

/-- The force `{x: 0.5, y: 0.5, fx: 1.0, fy: 0.5}`. -/
def forceC2 : ForceVector := { x := 1/2, y := 1/2, fx := 1, fy := 1/2 }

/-- The target `{x: 0.5, y: 0.5, u: 0.2, v: 0.0, weight: 0.5}`. -/
def targetC6 : TargetVelocity := { x := 1/2, y := 1/2, u := 1/5, v := 0, weight := 1/2 }

/-- Velocity and pressure are zero at every cell. -/
def allZeroState (g : SimulationGrid) : Prop :=
  (∀ y x, g.pressure y x = 0) ∧ (∀ y x, g.u y x = 0) ∧ (∀ y x, g.v y x = 0)

/-- No cell is an obstacle. -/
def obstacleFree (g : SimulationGrid) : Prop := ∀ y x, g.isObstacle y x = false

/-! Helper lemmas: which fields each pipeline stage leaves untouched. -/

theorem applyForce1_pressure (grid : SimulationGrid) (force : ForceVector) :
    (applyForce1 grid force).pressure = grid.pressure := by
  unfold applyForce1; dsimp only; split <;> rfl

theorem applyForce1_isObstacle (grid : SimulationGrid) (force : ForceVector) :
    (applyForce1 grid force).isObstacle = grid.isObstacle := by
  unfold applyForce1; dsimp only; split <;> rfl

theorem applyForce1_width (grid : SimulationGrid) (force : ForceVector) :
    (applyForce1 grid force).width = grid.width := by
  unfold applyForce1; dsimp only; split <;> rfl

theorem applyForce1_height (grid : SimulationGrid) (force : ForceVector) :
    (applyForce1 grid force).height = grid.height := by
  unfold applyForce1; dsimp only; split <;> rfl

theorem applyForces_pressure (forces : List ForceVector) :
    ∀ grid : SimulationGrid, (applyForces grid forces).pressure = grid.pressure := by
  induction forces with
  | nil => intro grid; rfl
  | cons f fs ih =>
    intro grid
    show (applyForces (applyForce1 grid f) fs).pressure = grid.pressure
    rw [ih (applyForce1 grid f), applyForce1_pressure]

theorem applyForces_isObstacle (forces : List ForceVector) :
    ∀ grid : SimulationGrid, (applyForces grid forces).isObstacle = grid.isObstacle := by
  induction forces with
  | nil => intro grid; rfl
  | cons f fs ih =>
    intro grid
    show (applyForces (applyForce1 grid f) fs).isObstacle = grid.isObstacle
    rw [ih (applyForce1 grid f), applyForce1_isObstacle]

theorem applyForces_width (forces : List ForceVector) :
    ∀ grid : SimulationGrid, (applyForces grid forces).width = grid.width := by
  induction forces with
  | nil => intro grid; rfl
  | cons f fs ih =>
    intro grid
    show (applyForces (applyForce1 grid f) fs).width = grid.width
    rw [ih (applyForce1 grid f), applyForce1_width]

theorem applyForces_height (forces : List ForceVector) :
    ∀ grid : SimulationGrid, (applyForces grid forces).height = grid.height := by
  induction forces with
  | nil => intro grid; rfl
  | cons f fs ih =>
    intro grid
    show (applyForces (applyForce1 grid f) fs).height = grid.height
    rw [ih (applyForce1 grid f), applyForce1_height]

theorem applyTarget1_pressure (grid : SimulationGrid) (target : TargetVelocity) :
    (applyTarget1 grid target).pressure = grid.pressure := by
  unfold applyTarget1; dsimp only; split <;> rfl

theorem applyTarget1_isObstacle (grid : SimulationGrid) (target : TargetVelocity) :
    (applyTarget1 grid target).isObstacle = grid.isObstacle := by
  unfold applyTarget1; dsimp only; split <;> rfl

theorem applyTarget1_width (grid : SimulationGrid) (target : TargetVelocity) :
    (applyTarget1 grid target).width = grid.width := by
  unfold applyTarget1; dsimp only; split <;> rfl

theorem applyTarget1_height (grid : SimulationGrid) (target : TargetVelocity) :
    (applyTarget1 grid target).height = grid.height := by
  unfold applyTarget1; dsimp only; split <;> rfl

theorem applyTargetVelocities_pressure (targets : List TargetVelocity) :
    ∀ grid : SimulationGrid, (applyTargetVelocities grid targets).pressure = grid.pressure := by
  induction targets with
  | nil => intro grid; rfl
  | cons t ts ih =>
    intro grid
    show (applyTargetVelocities (applyTarget1 grid t) ts).pressure = grid.pressure
    rw [ih (applyTarget1 grid t), applyTarget1_pressure]

theorem applyTargetVelocities_isObstacle (targets : List TargetVelocity) :
    ∀ grid : SimulationGrid, (applyTargetVelocities grid targets).isObstacle = grid.isObstacle := by
  induction targets with
  | nil => intro grid; rfl
  | cons t ts ih =>
    intro grid
    show (applyTargetVelocities (applyTarget1 grid t) ts).isObstacle = grid.isObstacle
    rw [ih (applyTarget1 grid t), applyTarget1_isObstacle]

theorem applyTargetVelocities_width (targets : List TargetVelocity) :
    ∀ grid : SimulationGrid, (applyTargetVelocities grid targets).width = grid.width := by
  induction targets with
  | nil => intro grid; rfl
  | cons t ts ih =>
    intro grid
    show (applyTargetVelocities (applyTarget1 grid t) ts).width = grid.width
    rw [ih (applyTarget1 grid t), applyTarget1_width]

theorem applyTargetVelocities_height (targets : List TargetVelocity) :
    ∀ grid : SimulationGrid, (applyTargetVelocities grid targets).height = grid.height := by
  induction targets with
  | nil => intro grid; rfl
  | cons t ts ih =>
    intro grid
    show (applyTargetVelocities (applyTarget1 grid t) ts).height = grid.height
    rw [ih (applyTarget1 grid t), applyTarget1_height]

theorem applyViscosity_pressure (grid : SimulationGrid) (viscosity : ℚ) :
    (applyViscosity grid viscosity).pressure = grid.pressure := by
  unfold applyViscosity; split <;> rfl

theorem applyViscosity_isObstacle (grid : SimulationGrid) (viscosity : ℚ) :
    (applyViscosity grid viscosity).isObstacle = grid.isObstacle := by
  unfold applyViscosity; split <;> rfl

theorem applyViscosity_width (grid : SimulationGrid) (viscosity : ℚ) :
    (applyViscosity grid viscosity).width = grid.width := by
  unfold applyViscosity; split <;> rfl

theorem applyViscosity_height (grid : SimulationGrid) (viscosity : ℚ) :
    (applyViscosity grid viscosity).height = grid.height := by
  unfold applyViscosity; split <;> rfl

theorem runSimulationStep_width (grid : SimulationGrid) (forces : List ForceVector)
    (targets : List TargetVelocity) (config : SimulationConfig) :
    (runSimulationStep grid forces targets config).width = grid.width := by
  show (applyTargetVelocities _ targets).width = grid.width
  rw [applyTargetVelocities_width]
  show (applyViscosity _ config.viscosity).width = grid.width
  rw [applyViscosity_width]
  show (applyForces (copySimulationGrid grid) forces).width = grid.width
  rw [applyForces_width]
  rfl

theorem runSimulationStep_height (grid : SimulationGrid) (forces : List ForceVector)
    (targets : List TargetVelocity) (config : SimulationConfig) :
    (runSimulationStep grid forces targets config).height = grid.height := by
  show (applyTargetVelocities _ targets).height = grid.height
  rw [applyTargetVelocities_height]
  show (applyViscosity _ config.viscosity).height = grid.height
  rw [applyViscosity_height]
  show (applyForces (copySimulationGrid grid) forces).height = grid.height
  rw [applyForces_height]
  rfl

theorem runSimulationStep_isObstacle (grid : SimulationGrid) (forces : List ForceVector)
    (targets : List TargetVelocity) (config : SimulationConfig) :
    (runSimulationStep grid forces targets config).isObstacle =
      (copySimulationGrid grid).isObstacle := by
  show (applyTargetVelocities _ targets).isObstacle = _
  rw [applyTargetVelocities_isObstacle]
  show (applyViscosity _ config.viscosity).isObstacle = _
  rw [applyViscosity_isObstacle]
  show (applyForces (copySimulationGrid grid) forces).isObstacle = _
  rw [applyForces_isObstacle]

/-! Claim theorems. -/

/-- C1 counterexample: the claim says every construction call with a
non-positive width or height raises an error, but `createSimulationGrid(0, 5)`
succeeds, silently returning a grid of width 0. -/
theorem createSimulationGrid_zero_width_succeeds :
    exceptIsOk (createSimulationGrid 0 5) = true := by decide

/-- C1 amended: `createSimulationGrid` performs no dimension validation of
its own; the call errors (the JS `RangeError` from a negative array
length) exactly when `height < 0`, or `width < 0` with `height > 0`.
Zero dimensions (and a negative width with `height = 0`) are accepted and
return a grid with those dimensions. -/
theorem createSimulationGrid_error_characterization (width height : ℤ) :
    exceptIsOk (createSimulationGrid width height) = false ↔
      (height < 0 ∨ (0 < height ∧ width < 0)) := by
  unfold createSimulationGrid
  split_ifs with h1 h2 <;> simp [exceptIsOk] <;> omega

theorem updatePressure_u (grid : SimulationGrid) (rf : ℚ) :
    (updatePressure grid rf).u = grid.u := rfl

theorem updatePressure_v (grid : SimulationGrid) (rf : ℚ) :
    (updatePressure grid rf).v = grid.v := rfl

theorem updatePressure_isObstacle (grid : SimulationGrid) (rf : ℚ) :
    (updatePressure grid rf).isObstacle = grid.isObstacle := rfl

theorem updateVelocity_pressure (grid : SimulationGrid) (pi2 : ℚ) :
    (updateVelocity grid pi2).pressure = grid.pressure := rfl

theorem updateVelocity_isObstacle (grid : SimulationGrid) (pi2 : ℚ) :
    (updateVelocity grid pi2).isObstacle = grid.isObstacle := rfl

theorem updateVelocity_zero_u (grid : SimulationGrid) :
    (updateVelocity grid 0).u = grid.u := by
  funext y x
  unfold updateVelocity
  dsimp only
  split <;> ring

theorem updateVelocity_zero_v (grid : SimulationGrid) :
    (updateVelocity grid 0).v = grid.v := by
  funext y x
  unfold updateVelocity
  dsimp only
  split <;> ring

theorem updatePressure_width (grid : SimulationGrid) (rf : ℚ) :
    (updatePressure grid rf).width = grid.width := rfl

theorem updatePressure_height (grid : SimulationGrid) (rf : ℚ) :
    (updatePressure grid rf).height = grid.height := rfl

theorem updateVelocity_width (grid : SimulationGrid) (pi2 : ℚ) :
    (updateVelocity grid pi2).width = grid.width := rfl

theorem updateVelocity_height (grid : SimulationGrid) (pi2 : ℚ) :
    (updateVelocity grid pi2).height = grid.height := rfl

set_option maxHeartbeats 1000000 in
/-- C2: for every config with `pressureImpact = 0`, `timeStep = 0` and
`viscosity = 0` (relaxation factor and iteration count arbitrary), one
`runSimulationStep` on the zero-initialized obstacle-free 5×5 grid with
the single force `{x: 0.5, y: 0.5, fx: 1.0, fy: 0.5}` and no targets
returns `u[2][2] = 5.0` and `v[2][2] = 2.5`: the force components are
scaled by width and height respectively and injected exactly once. -/
theorem runStep_scaled_force_injection (rf : ℚ) (its : ℕ) :
    (runSimulationStep zeroGrid5 [forceC2] [] ⟨rf, 0, 0, 0, its⟩).u 2 2 = 5 ∧
    (runSimulationStep zeroGrid5 [forceC2] [] ⟨rf, 0, 0, 0, its⟩).v 2 2 = 5/2 := by
  constructor <;>
  · dsimp only [runSimulationStep]
    simp only [applyTargetVelocities, List.foldl_nil, applyBoundaryConditions,
      updateVelocity_zero_u, updateVelocity_zero_v, updatePressure_u, updatePressure_v,
      updateVelocity_isObstacle, updatePressure_isObstacle,
      updateVelocity_width, updateVelocity_height, updatePressure_width, updatePressure_height]
    norm_num [applyViscosity, applyAdvection, applyForces, applyForce1,
      copySimulationGrid, bilinearInterpolate, interiorCell, mkSimulationGrid, zeroGrid5, forceC2]

theorem stepsLoop_eq_iterate (forces : List ForceVector) (targets : List TargetVelocity)
    (config : SimulationConfig) :
    ∀ (n : ℕ) (g : SimulationGrid),
      stepsLoop forces targets config n g =
        (fun gr => runSimulationStep gr forces targets config)^[n] g := by
  intro n
  induction n with
  | zero => intro g; rfl
  | succ n ih =>
    intro g
    show stepsLoop forces targets config n (runSimulationStep g forces targets config) = _
    rw [Function.iterate_succ_apply]
    exact ih _

/-- C7: `runSteadyStateSimulation` is exactly `config.iterations`
unconditional iterations of `runSimulationStep` starting from a copy of
the input grid — no convergence check, no early exit. -/
theorem runSteadyStateSimulation_eq_iterate (grid : SimulationGrid) (forces : List ForceVector)
    (targets : List TargetVelocity) (config : SimulationConfig) :
    runSteadyStateSimulation grid forces targets config =
      (fun gr => runSimulationStep gr forces targets config)^[config.iterations]
        (copySimulationGrid grid) :=
  stepsLoop_eq_iterate forces targets config config.iterations (copySimulationGrid grid)

theorem applyAdvection_isObstacle (grid : SimulationGrid) (dt : ℚ) :
    (applyAdvection grid dt).isObstacle = grid.isObstacle := rfl

theorem applyAdvection_pressure (grid : SimulationGrid) (dt : ℚ) :
    (applyAdvection grid dt).pressure = grid.pressure := rfl

theorem pipeline_width (g : SimulationGrid) (forces : List ForceVector)
    (targets : List TargetVelocity) (dt visc rf pi2 : ℚ) :
    (applyTargetVelocities (updateVelocity (updatePressure (applyViscosity (applyAdvection
        (applyForces (copySimulationGrid g) forces) dt) visc) rf) pi2) targets).width
      = g.width := by
  rw [applyTargetVelocities_width, updateVelocity_width, updatePressure_width,
    applyViscosity_width]
  show (applyForces (copySimulationGrid g) forces).width = _
  rw [applyForces_width]
  rfl
theorem pipeline_height (g : SimulationGrid) (forces : List ForceVector)
    (targets : List TargetVelocity) (dt visc rf pi2 : ℚ) :
    (applyTargetVelocities (updateVelocity (updatePressure (applyViscosity (applyAdvection
        (applyForces (copySimulationGrid g) forces) dt) visc) rf) pi2) targets).height
      = g.height := by
  rw [applyTargetVelocities_height, updateVelocity_height, updatePressure_height,
    applyViscosity_height]
  show (applyForces (copySimulationGrid g) forces).height = _
  rw [applyForces_height]
  rfl
theorem pipeline_isObstacle_point (g : SimulationGrid) (forces : List ForceVector)
    (targets : List TargetVelocity) (dt visc rf pi2 : ℚ) (y x : ℤ)
    (hy0 : 0 ≤ y) (hyh : y < g.height) (hx0 : 0 ≤ x) (hxw : x < g.width) :
    (applyTargetVelocities (updateVelocity (updatePressure (applyViscosity (applyAdvection
        (applyForces (copySimulationGrid g) forces) dt) visc) rf) pi2) targets).isObstacle y x
      = g.isObstacle y x := by
  rw [applyTargetVelocities_isObstacle, updateVelocity_isObstacle, updatePressure_isObstacle,
    applyViscosity_isObstacle]
  show (applyForces (copySimulationGrid g) forces).isObstacle y x = _
  rw [applyForces_isObstacle]
  unfold copySimulationGrid
  dsimp only
  rw [if_pos ⟨hy0, hyh, hx0, hxw⟩]

theorem prePressure_width (g : SimulationGrid) (forces : List ForceVector) (dt visc : ℚ) :
    (applyViscosity (applyAdvection (applyForces (copySimulationGrid g) forces) dt) visc).width
      = g.width := by
  rw [applyViscosity_width]
  show (applyForces (copySimulationGrid g) forces).width = _
  rw [applyForces_width]
  rfl
theorem prePressure_height (g : SimulationGrid) (forces : List ForceVector) (dt visc : ℚ) :
    (applyViscosity (applyAdvection (applyForces (copySimulationGrid g) forces) dt) visc).height
      = g.height := by
  rw [applyViscosity_height]
  show (applyForces (copySimulationGrid g) forces).height = _
  rw [applyForces_height]
  rfl
theorem prePressure_isObstacle_point (g : SimulationGrid) (forces : List ForceVector)
    (dt visc : ℚ) (y x : ℤ)
    (hy0 : 0 ≤ y) (hyh : y < g.height) (hx0 : 0 ≤ x) (hxw : x < g.width) :
    (applyViscosity (applyAdvection (applyForces (copySimulationGrid g) forces) dt)
        visc).isObstacle y x = g.isObstacle y x := by
  rw [applyViscosity_isObstacle]
  show (applyForces (copySimulationGrid g) forces).isObstacle y x = _
  rw [applyForces_isObstacle]
  unfold copySimulationGrid
  dsimp only
  rw [if_pos ⟨hy0, hyh, hx0, hxw⟩]

/-- C4: after `applyBoundaryConditions`, every cell on the outermost row or
column and every obstacle cell has `u = v = 0`; and since
`runSimulationStep` applies boundary conditions last, the same holds of
the grid returned by every completed step. -/
theorem boundary_and_step_zero_velocity :
    (∀ (g : SimulationGrid) (y x : ℤ),
        0 ≤ y → y < g.height → 0 ≤ x → x < g.width →
        (g.isObstacle y x = true ∨ x = 0 ∨ x = g.width - 1 ∨ y = 0 ∨ y = g.height - 1) →
        (applyBoundaryConditions g).u y x = 0 ∧ (applyBoundaryConditions g).v y x = 0) ∧
    (∀ (g : SimulationGrid) (forces : List ForceVector) (targets : List TargetVelocity)
        (config : SimulationConfig) (y x : ℤ),
        0 ≤ y → y < g.height → 0 ≤ x → x < g.width →
        (g.isObstacle y x = true ∨ x = 0 ∨ x = g.width - 1 ∨ y = 0 ∨ y = g.height - 1) →
        (runSimulationStep g forces targets config).u y x = 0 ∧
          (runSimulationStep g forces targets config).v y x = 0) := by
  constructor
  · intro g y x hy0 hyh hx0 hxw hcell
    unfold applyBoundaryConditions
    dsimp only
    constructor <;> rw [if_pos ⟨⟨hy0, hyh, hx0, hxw⟩, hcell⟩]
  · intro g forces targets config y x hy0 hyh hx0 hxw hcell
    unfold runSimulationStep applyBoundaryConditions
    dsimp only
    rw [pipeline_width, pipeline_height, pipeline_isObstacle_point g forces targets _ _ _ _ y x hy0 hyh hx0 hxw]
    constructor <;> rw [if_pos ⟨⟨hy0, hyh, hx0, hxw⟩, hcell⟩]

/-- C10: `runSimulationStep` never changes the pressure of a border cell
or an obstacle cell: the pressure relaxation is the only stage writing
pressure and it writes only interior non-obstacle cells. -/
theorem runStep_pressure_frame (g : SimulationGrid) (forces : List ForceVector)
    (targets : List TargetVelocity) (config : SimulationConfig) (y x : ℤ)
    (hy0 : 0 ≤ y) (hyh : y < g.height) (hx0 : 0 ≤ x) (hxw : x < g.width)
    (hcell : g.isObstacle y x = true ∨ x = 0 ∨ x = g.width - 1 ∨ y = 0 ∨ y = g.height - 1) :
    (runSimulationStep g forces targets config).pressure y x = g.pressure y x := by
  unfold runSimulationStep
  show (applyTargetVelocities _ targets).pressure y x = g.pressure y x
  rw [applyTargetVelocities_pressure]
  show (updatePressure (applyViscosity (applyAdvection (applyForces (copySimulationGrid g)
      forces) config.timeStep) config.viscosity) config.relaxationFactor).pressure y x
    = g.pressure y x
  unfold updatePressure
  dsimp only
  rw [if_neg]
  · rw [applyViscosity_pressure]
    show (applyForces (copySimulationGrid g) forces).pressure y x = g.pressure y x
    rw [applyForces_pressure]
    unfold copySimulationGrid
    dsimp only
    rw [if_pos ⟨hy0, hyh, hx0, hxw⟩]
  · intro hc
    obtain ⟨hint, hobs⟩ := hc
    rw [prePressure_isObstacle_point g forces _ _ y x hy0 hyh hx0 hxw] at hobs
    unfold interiorCell at hint
    rw [prePressure_width, prePressure_height] at hint
    rcases hcell with hob | hb | hb | hb | hb
    · rw [hob] at hobs
      exact absurd hobs (by simp)
    all_goals omega

theorem bilinearInterpolate_zero (field : ℤ → ℤ → ℚ) (hf : ∀ a b, field a b = 0)
    (x y : ℚ) (w h : ℤ) : bilinearInterpolate field x y w h = 0 := by
  unfold bilinearInterpolate
  dsimp only
  rw [hf, hf, hf, hf]
  ring

theorem copy_preserves_zero (g : SimulationGrid) (hz : allZeroState g) (hf : obstacleFree g) :
    allZeroState (copySimulationGrid g) ∧ obstacleFree (copySimulationGrid g) := by
  obtain ⟨hp, hu, hv⟩ := hz
  refine ⟨⟨fun y x => ?_, fun y x => ?_, fun y x => ?_⟩, fun y x => ?_⟩ <;>
    (unfold copySimulationGrid; dsimp only; split)
  · exact hp y x
  · rfl
  · exact hu y x
  · rfl
  · exact hv y x
  · rfl
  · exact hf y x
  · rfl

theorem advection_preserves_zero (g : SimulationGrid) (dt : ℚ)
    (hz : allZeroState g) (hf : obstacleFree g) :
    allZeroState (applyAdvection g dt) ∧ obstacleFree (applyAdvection g dt) := by
  obtain ⟨hp, hu, hv⟩ := hz
  refine ⟨⟨fun y x => hp y x, fun y x => ?_, fun y x => ?_⟩, fun y x => hf y x⟩ <;>
    (unfold applyAdvection; dsimp only; split)
  · exact bilinearInterpolate_zero g.u hu _ _ _ _
  · exact hu y x
  · exact bilinearInterpolate_zero g.v hv _ _ _ _
  · exact hv y x

theorem viscosity_preserves_zero (g : SimulationGrid) (visc : ℚ)
    (hz : allZeroState g) (hf : obstacleFree g) :
    allZeroState (applyViscosity g visc) ∧ obstacleFree (applyViscosity g visc) := by
  obtain ⟨hp, hu, hv⟩ := hz
  unfold applyViscosity
  split
  · exact ⟨⟨hp, hu, hv⟩, hf⟩
  · refine ⟨⟨fun y x => hp y x, fun y x => ?_, fun y x => ?_⟩, fun y x => hf y x⟩ <;>
      (dsimp only; split)
    · simp only [hu]; ring
    · exact hu y x
    · simp only [hv]; ring
    · exact hv y x

theorem updatePressure_preserves_zero (g : SimulationGrid) (rf : ℚ)
    (hz : allZeroState g) (hf : obstacleFree g) :
    allZeroState (updatePressure g rf) ∧ obstacleFree (updatePressure g rf) := by
  obtain ⟨hp, hu, hv⟩ := hz
  refine ⟨⟨fun y x => ?_, fun y x => hu y x, fun y x => hv y x⟩, fun y x => hf y x⟩
  unfold updatePressure
  dsimp only
  split
  · simp only [hp, hu, hv]; ring
  · exact hp y x

theorem updateVelocity_preserves_zero (g : SimulationGrid) (pi2 : ℚ)
    (hz : allZeroState g) (hf : obstacleFree g) :
    allZeroState (updateVelocity g pi2) ∧ obstacleFree (updateVelocity g pi2) := by
  obtain ⟨hp, hu, hv⟩ := hz
  refine ⟨⟨fun y x => hp y x, fun y x => ?_, fun y x => ?_⟩, fun y x => hf y x⟩ <;>
    (unfold updateVelocity; dsimp only; split)
  · simp only [hp, hu]; ring
  · exact hu y x
  · simp only [hp, hv]; ring
  · exact hv y x

theorem boundary_preserves_zero (g : SimulationGrid)
    (hz : allZeroState g) (hf : obstacleFree g) :
    allZeroState (applyBoundaryConditions g) ∧ obstacleFree (applyBoundaryConditions g) := by
  obtain ⟨hp, hu, hv⟩ := hz
  refine ⟨⟨fun y x => hp y x, fun y x => ?_, fun y x => ?_⟩, fun y x => hf y x⟩ <;>
    (unfold applyBoundaryConditions; dsimp only; split)
  · rfl
  · exact hu y x
  · rfl
  · exact hv y x

theorem runStep_preserves_zero (g : SimulationGrid) (config : SimulationConfig)
    (hz : allZeroState g) (hf : obstacleFree g) :
    allZeroState (runSimulationStep g [] [] config) ∧
      obstacleFree (runSimulationStep g [] [] config) := by
  unfold runSimulationStep
  have h1 := copy_preserves_zero g hz hf
  have h2 := advection_preserves_zero (applyForces (copySimulationGrid g) [])
    config.timeStep h1.1 h1.2
  have h3 := viscosity_preserves_zero _ config.viscosity h2.1 h2.2
  have h4 := updatePressure_preserves_zero _ config.relaxationFactor h3.1 h3.2
  have h5 := updateVelocity_preserves_zero _ config.pressureImpact h4.1 h4.2
  exact boundary_preserves_zero
    (applyTargetVelocities (updateVelocity _ config.pressureImpact) []) h5.1 h5.2

theorem iterate_preserves_zero (config : SimulationConfig) :
    ∀ (n : ℕ) (g : SimulationGrid), allZeroState g → obstacleFree g →
      allZeroState ((fun gr => runSimulationStep gr [] [] config)^[n] g) ∧
        obstacleFree ((fun gr => runSimulationStep gr [] [] config)^[n] g) := by
  intro n
  induction n with
  | zero => intro g hz hf; exact ⟨hz, hf⟩
  | succ n ih =>
    intro g hz hf
    rw [Function.iterate_succ_apply]
    exact ih _ (runStep_preserves_zero g config hz hf).1 (runStep_preserves_zero g config hz hf).2

/-- C5: the all-zero state is a fixed point of `runSimulationStep`: an
obstacle-free grid with zero velocity and pressure everywhere stays
all-zero under any number of steps with empty force and target lists,
for every config. -/
theorem zero_grid_fixed_point (g : SimulationGrid) (config : SimulationConfig) (n : ℕ)
    (hz : allZeroState g) (hf : obstacleFree g) :
    allZeroState ((fun gr => runSimulationStep gr [] [] config)^[n] g) :=
  (iterate_preserves_zero config n g hz hf).1

/-- Witness for C5 at the 2×2 zero grid, default config, three steps. -/
theorem zero_grid_fixed_point_witness :
    allZeroState ((fun gr => runSimulationStep gr [] [] DEFAULT_SIMULATION_CONFIG)^[3]
      (mkSimulationGrid 2 2)) :=
  zero_grid_fixed_point (mkSimulationGrid 2 2) DEFAULT_SIMULATION_CONFIG 3
    ⟨fun _ _ => rfl, fun _ _ => rfl, fun _ _ => rfl⟩ (fun _ _ => rfl)

/-- Witness for C4 at the border cell `(y, x) = (0, 1)` of a 3×3 grid. -/
theorem boundary_and_step_zero_velocity_witness :
    (applyBoundaryConditions (mkSimulationGrid 3 3)).u 0 1 = 0 ∧
    (runSimulationStep (mkSimulationGrid 3 3) [] [] DEFAULT_SIMULATION_CONFIG).u 0 1 = 0 :=
  ⟨(boundary_and_step_zero_velocity.1 (mkSimulationGrid 3 3) 0 1 (by decide) (by decide)
      (by decide) (by decide) (by decide)).1,
   (boundary_and_step_zero_velocity.2 (mkSimulationGrid 3 3) [] [] DEFAULT_SIMULATION_CONFIG
      0 1 (by decide) (by decide) (by decide) (by decide) (by decide)).1⟩

/-- Witness for C10 at the border cell `(y, x) = (0, 2)` of a 4×4 grid. -/
theorem runStep_pressure_frame_witness :
    (runSimulationStep (mkSimulationGrid 4 4) [] [] DEFAULT_SIMULATION_CONFIG).pressure 0 2 =
      (mkSimulationGrid 4 4).pressure 0 2 :=
  runStep_pressure_frame (mkSimulationGrid 4 4) [] [] DEFAULT_SIMULATION_CONFIG 0 2
    (by decide) (by decide) (by decide) (by decide) (by decide)

set_option maxHeartbeats 1000000 in
/-- C6: each target-velocity entry maps its normalized position to
`(gx, gy) = (floor(x·width), floor(y·height))`, is silently skipped
unless `1 ≤ gx < width-1`, `1 ≤ gy < height-1` and the cell is not an
obstacle, scales `(u, v)` by `(width, height)` and mixes
`u = (1-weight)·u + weight·scaledU` (same for `v`); on the zero 5×5 grid
the target `{x:0.5, y:0.5, u:0.2, v:0, weight:0.5}` yields
`u[2][2] = 0.5`, also through a full step with all other physics
disabled. -/
theorem applyTargetVelocities_mixing :
    (∀ (g : SimulationGrid) (ts : List TargetVelocity),
        applyTargetVelocities g ts = ts.foldl applyTarget1 g) ∧
    (∀ (g : SimulationGrid) (t : TargetVelocity) (y x : ℤ),
        ((applyTarget1 g t).u y x =
          if 1 ≤ ⌊t.x * (g.width : ℚ)⌋ ∧ ⌊t.x * (g.width : ℚ)⌋ < g.width - 1 ∧
              1 ≤ ⌊t.y * (g.height : ℚ)⌋ ∧ ⌊t.y * (g.height : ℚ)⌋ < g.height - 1 ∧
              g.isObstacle ⌊t.y * (g.height : ℚ)⌋ ⌊t.x * (g.width : ℚ)⌋ = false ∧
              y = ⌊t.y * (g.height : ℚ)⌋ ∧ x = ⌊t.x * (g.width : ℚ)⌋ then
            (1 - t.weight) * g.u y x + t.weight * (t.u * (g.width : ℚ))
          else g.u y x) ∧
        ((applyTarget1 g t).v y x =
          if 1 ≤ ⌊t.x * (g.width : ℚ)⌋ ∧ ⌊t.x * (g.width : ℚ)⌋ < g.width - 1 ∧
              1 ≤ ⌊t.y * (g.height : ℚ)⌋ ∧ ⌊t.y * (g.height : ℚ)⌋ < g.height - 1 ∧
              g.isObstacle ⌊t.y * (g.height : ℚ)⌋ ⌊t.x * (g.width : ℚ)⌋ = false ∧
              y = ⌊t.y * (g.height : ℚ)⌋ ∧ x = ⌊t.x * (g.width : ℚ)⌋ then
            (1 - t.weight) * g.v y x + t.weight * (t.v * (g.height : ℚ))
          else g.v y x)) ∧
    (applyTargetVelocities zeroGrid5 [targetC6]).u 2 2 = 1/2 ∧
    (runSimulationStep zeroGrid5 [] [targetC6] ⟨0, 0, 0, 0, 1⟩).u 2 2 = 1/2 := by
  refine ⟨fun g ts => rfl, fun g t y x => ?_, ?_, ?_⟩
  · unfold applyTarget1
    dsimp only
    by_cases hskip : ⌊t.x * (g.width : ℚ)⌋ < 1 ∨ g.width - 1 ≤ ⌊t.x * (g.width : ℚ)⌋ ∨
        ⌊t.y * (g.height : ℚ)⌋ < 1 ∨ g.height - 1 ≤ ⌊t.y * (g.height : ℚ)⌋ ∨
        g.isObstacle ⌊t.y * (g.height : ℚ)⌋ ⌊t.x * (g.width : ℚ)⌋ = true
    · have hnc : ¬(1 ≤ ⌊t.x * (g.width : ℚ)⌋ ∧ ⌊t.x * (g.width : ℚ)⌋ < g.width - 1 ∧
          1 ≤ ⌊t.y * (g.height : ℚ)⌋ ∧ ⌊t.y * (g.height : ℚ)⌋ < g.height - 1 ∧
          g.isObstacle ⌊t.y * (g.height : ℚ)⌋ ⌊t.x * (g.width : ℚ)⌋ = false ∧
          y = ⌊t.y * (g.height : ℚ)⌋ ∧ x = ⌊t.x * (g.width : ℚ)⌋) := by
        intro hc
        obtain ⟨h1, h2, h3, h4, h5, _⟩ := hc
        rcases hskip with h | h | h | h | h <;> first | omega | simp_all
      rw [if_pos hskip]
      constructor
      · rw [if_neg hnc]
      · rw [if_neg hnc]
    · rw [if_neg hskip]
      push_neg at hskip
      obtain ⟨hx1, hx2, hy1, hy2, hobs⟩ := hskip
      have hobs2 : g.isObstacle ⌊t.y * (g.height : ℚ)⌋ ⌊t.x * (g.width : ℚ)⌋ = false := by
        simpa using hobs
      dsimp only
      by_cases hyx : y = ⌊t.y * (g.height : ℚ)⌋ ∧ x = ⌊t.x * (g.width : ℚ)⌋
      · constructor <;>
          rw [if_pos hyx, if_pos ⟨hx1, hx2, hy1, hy2, hobs2, hyx.1, hyx.2⟩]
      · constructor <;>
          rw [if_neg hyx, if_neg fun hc => hyx ⟨hc.2.2.2.2.2.1, hc.2.2.2.2.2.2⟩]
  · norm_num [applyTargetVelocities, applyTarget1, zeroGrid5, mkSimulationGrid, targetC6]
  · dsimp only [runSimulationStep]
    norm_num [applyTargetVelocities, applyTarget1, applyBoundaryConditions, updateVelocity,
      updatePressure, applyViscosity, applyAdvection, applyForces, copySimulationGrid,
      bilinearInterpolate, interiorCell, mkSimulationGrid, zeroGrid5, targetC6]

/-- C8: `createGridFromMask` fails exactly when the mask has zero rows or
its first row has zero columns — in particular on `[]` and `[[]]` — and
succeeds on every other mask, returning a grid whose obstacle flags copy
the mask and whose pressure and velocity are zero everywhere. -/
theorem createGridFromMask_empty_iff :
    (∀ obstacleMask : List (List Bool),
        exceptIsOk (createGridFromMask obstacleMask) = false ↔
          (obstacleMask.length = 0 ∨ (obstacleMask.headD []).length = 0)) ∧
    exceptIsOk (createGridFromMask []) = false ∧
    exceptIsOk (createGridFromMask [[]]) = false ∧
    (∀ obstacleMask : List (List Bool),
        0 < obstacleMask.length → 0 < (obstacleMask.headD []).length →
        ∃ g : SimulationGrid, createGridFromMask obstacleMask = .ok g ∧
          g.width = ((obstacleMask.headD []).length : ℤ) ∧
          g.height = (obstacleMask.length : ℤ) ∧
          (∀ y x : ℤ, 0 ≤ y → y < g.height → 0 ≤ x → x < g.width →
            g.isObstacle y x = (obstacleMask.getD y.toNat []).getD x.toNat false) ∧
          (∀ y x : ℤ, g.pressure y x = 0 ∧ g.u y x = 0 ∧ g.v y x = 0)) := by
  refine ⟨?_, by decide, by decide, ?_⟩
  · intro mask
    unfold createGridFromMask
    split_ifs with h
    · simpa [exceptIsOk] using h
    · simpa [exceptIsOk] using h
  · intro mask h1 h2
    unfold createGridFromMask
    rw [if_neg (by omega : ¬(mask.length = 0 ∨ (mask.headD []).length = 0))]
    dsimp only
    refine ⟨_, rfl, rfl, rfl, fun y x hy0 hyh hx0 hxw => ?_, fun y x => ⟨rfl, rfl, rfl⟩⟩
    dsimp only
    rw [if_pos ⟨hy0, hyh, hx0, hxw⟩]

/-- Witness for C8: a concrete non-empty 2×2 mask is accepted. -/
theorem createGridFromMask_empty_iff_witness :
    exceptIsOk (createGridFromMask [[true, false], [false, true]]) = true := by
  obtain ⟨g, hg, _⟩ := createGridFromMask_empty_iff.2.2.2 [[true, false], [false, true]]
    (by decide) (by decide)
  rw [hg]
  rfl

theorem sessionLoop_succ_none (ts : List TargetVelocity) (fuel : ℕ) (g : SimulationGrid)
    (done : ℕ) :
    sessionLoop ts (fuel + 1) g none done =
      sessionLoop ts fuel (sessionStep ts g)
        (some (velocityFieldOf (sessionStep ts g))) (done + 1) := rfl

theorem sessionLoop_succ_some (ts : List TargetVelocity) (fuel : ℕ) (g : SimulationGrid)
    (p : VelocityField) (done : ℕ) :
    sessionLoop ts (fuel + 1) g (some p) done =
      if maxVelocityDiff (sessionStep ts g) p < CONVERGENCE_THRESHOLD then
        { grid := sessionStep ts g, steps := done + 1, converged := true }
      else
        sessionLoop ts fuel (sessionStep ts g)
          (some (velocityFieldOf (sessionStep ts g))) (done + 1) := rfl

theorem sessionLoop_no_conv (ts : List TargetVelocity) :
    ∀ (fuel : ℕ) (g : SimulationGrid) (done : ℕ),
      (∀ m, 1 ≤ m → m ≤ fuel →
        ¬ maxVelocityDiff ((sessionStep ts)^[m] g)
            (velocityFieldOf ((sessionStep ts)^[m - 1] g)) < CONVERGENCE_THRESHOLD) →
      sessionLoop ts fuel g (some (velocityFieldOf g)) done =
        { grid := (sessionStep ts)^[fuel] g, steps := done + fuel, converged := false } := by
  intro fuel
  induction fuel with
  | zero =>
    intro g done h
    simp [sessionLoop]
  | succ fuel ih =>
    intro g done h
    have h1 : ¬ maxVelocityDiff (sessionStep ts g) (velocityFieldOf g) <
        CONVERGENCE_THRESHOLD := by
      have h2 := h 1 le_rfl (by omega)
      simpa only [Function.iterate_one, Nat.sub_self, Function.iterate_zero, id_eq] using h2
    rw [sessionLoop_succ_some, if_neg h1]
    rw [ih (sessionStep ts g) (done + 1) ?_]
    · congr 1
      omega
    · intro m hm1 hm2
      have e2 : (sessionStep ts)^[m - 1] (sessionStep ts g) = (sessionStep ts)^[m] g := by
        rw [← Function.iterate_succ_apply]
        congr 1
        omega
      rw [e2]
      have h2 := h (m + 1) (by omega) (by omega)
      simpa only [Nat.add_sub_cancel, Function.iterate_succ_apply] using h2

theorem sessionLoop_conv (ts : List TargetVelocity) :
    ∀ (m fuel : ℕ) (g : SimulationGrid) (done : ℕ),
      1 ≤ m → m ≤ fuel →
      (∀ j, 1 ≤ j → j < m →
        ¬ maxVelocityDiff ((sessionStep ts)^[j] g)
            (velocityFieldOf ((sessionStep ts)^[j - 1] g)) < CONVERGENCE_THRESHOLD) →
      maxVelocityDiff ((sessionStep ts)^[m] g)
          (velocityFieldOf ((sessionStep ts)^[m - 1] g)) < CONVERGENCE_THRESHOLD →
      sessionLoop ts fuel g (some (velocityFieldOf g)) done =
        { grid := (sessionStep ts)^[m] g, steps := done + m, converged := true } := by
  intro m
  induction m with
  | zero => intro fuel g done hm; omega
  | succ m ih =>
    intro fuel g done hm1 hmf hmin hbelow
    obtain ⟨f, rfl⟩ : ∃ f, fuel = f + 1 := ⟨fuel - 1, by omega⟩
    rw [sessionLoop_succ_some]
    rcases Nat.eq_zero_or_pos m with hm0 | hmpos
    · subst hm0
      rw [if_pos (by
        simpa only [Nat.zero_add, Nat.add_sub_cancel, Function.iterate_one,
          Function.iterate_zero, id_eq] using hbelow)]
      rfl
    · rw [if_neg (by
        have h2 := hmin 1 le_rfl (by omega)
        simpa only [Function.iterate_one, Nat.sub_self, Function.iterate_zero, id_eq]
          using h2)]
      rw [ih f (sessionStep ts g) (done + 1) hmpos (by omega) ?_ ?_]
      · congr 1
        omega
      · intro j hj1 hjm
        have e2 : (sessionStep ts)^[j - 1] (sessionStep ts g) = (sessionStep ts)^[j] g := by
          rw [← Function.iterate_succ_apply]
          congr 1
          omega
        rw [e2]
        have h2 := hmin (j + 1) (by omega) (by omega)
        simpa only [Nat.add_sub_cancel, Function.iterate_succ_apply] using h2
      · have e1 : (sessionStep ts)^[m] (sessionStep ts g) = (sessionStep ts)^[m + 1] g :=
          (Function.iterate_succ_apply _ _ _).symm
        have e2 : (sessionStep ts)^[m - 1] (sessionStep ts g) = (sessionStep ts)^[m] g := by
          rw [← Function.iterate_succ_apply]
          congr 1
          omega
        rw [e1, e2]
        simpa only [Nat.add_sub_cancel] using hbelow

theorem sessionBelow_shift (ts : List TargetVelocity) (g0 : SimulationGrid) (j : ℕ)
    (hj : 1 ≤ j) :
    sessionBelow ts g0 (j + 1) ↔
      maxVelocityDiff ((sessionStep ts)^[j] (sessionStep ts g0))
        (velocityFieldOf ((sessionStep ts)^[j - 1] (sessionStep ts g0))) <
          CONVERGENCE_THRESHOLD := by
  unfold sessionBelow sessionTraj
  have e1 : (sessionStep ts)^[j + 1] g0 = (sessionStep ts)^[j] (sessionStep ts g0) :=
    Function.iterate_succ_apply _ _ _
  have e2 : (sessionStep ts)^[j + 1 - 1] g0 = (sessionStep ts)^[j - 1] (sessionStep ts g0) := by
    rw [← Function.iterate_succ_apply]
    congr 1
    omega
  rw [e1, e2]

/-- C3: the interactive session loop performs at most `MAX_STEPS = 5000`
`runSimulationStep` calls (each with an empty force list and the targets
converted once at session start); it stops with `converged = true` at the
first step `k ≥ 2` whose max per-cell velocity difference to the previous
step is below `0.0001`, and a session in which that never happens still
terminates, exactly at the 5000-step ceiling, with `converged = false`. -/
theorem session_ceiling_and_convergence (g0 : SimulationGrid)
    (forceVectors : List ForceVector) (targetWeight : ℚ) :
    (runInteractiveSession g0 forceVectors targetWeight).steps ≤ MAX_STEPS ∧
    ((runInteractiveSession g0 forceVectors targetWeight).converged = false →
      (runInteractiveSession g0 forceVectors targetWeight).steps = MAX_STEPS ∧
      ∀ k, 2 ≤ k → k ≤ MAX_STEPS →
        ¬ sessionBelow (convertForceVectorsToTargetVelocities forceVectors targetWeight)
            g0 k) ∧
    ((runInteractiveSession g0 forceVectors targetWeight).converged = true →
      2 ≤ (runInteractiveSession g0 forceVectors targetWeight).steps ∧
      sessionBelow (convertForceVectorsToTargetVelocities forceVectors targetWeight) g0
        (runInteractiveSession g0 forceVectors targetWeight).steps ∧
      (∀ k, 2 ≤ k → k < (runInteractiveSession g0 forceVectors targetWeight).steps →
        ¬ sessionBelow (convertForceVectorsToTargetVelocities forceVectors targetWeight)
            g0 k) ∧
      (runInteractiveSession g0 forceVectors targetWeight).grid =
        sessionTraj (convertForceVectorsToTargetVelocities forceVectors targetWeight) g0
          (runInteractiveSession g0 forceVectors targetWeight).steps) := by
  set ts := convertForceVectorsToTargetVelocities forceVectors targetWeight with hts
  have hstart : runInteractiveSession g0 forceVectors targetWeight =
      sessionLoop ts 4999 (sessionStep ts g0)
        (some (velocityFieldOf (sessionStep ts g0))) 1 := by
    show sessionLoop ts MAX_STEPS g0 none 0 = _
    rw [show MAX_STEPS = 4999 + 1 from rfl, sessionLoop_succ_none]
  by_cases hex : ∃ m, 1 ≤ m ∧ m ≤ 4999 ∧
      maxVelocityDiff ((sessionStep ts)^[m] (sessionStep ts g0))
        (velocityFieldOf ((sessionStep ts)^[m - 1] (sessionStep ts g0))) <
          CONVERGENCE_THRESHOLD
  · obtain ⟨hm1, hm2, hbel⟩ := Nat.find_spec hex
    have hmin : ∀ j, 1 ≤ j → j < Nat.find hex →
        ¬ maxVelocityDiff ((sessionStep ts)^[j] (sessionStep ts g0))
            (velocityFieldOf ((sessionStep ts)^[j - 1] (sessionStep ts g0))) <
              CONVERGENCE_THRESHOLD := by
      intro j hj1 hj2 hcon
      exact Nat.find_min hex hj2 ⟨hj1, by omega, hcon⟩
    have hloop := sessionLoop_conv ts (Nat.find hex) 4999 (sessionStep ts g0) 1 hm1 hm2
      hmin hbel
    rw [hstart, hloop]
    dsimp only
    refine ⟨?_, ?_, ?_⟩
    · show 1 + Nat.find hex ≤ 5000
      omega
    · intro hfalse
      exact absurd hfalse (by simp)
    · intro _
      refine ⟨by omega, ?_, ?_, ?_⟩
      · rw [Nat.add_comm 1 (Nat.find hex)]
        exact (sessionBelow_shift ts g0 (Nat.find hex) hm1).mpr hbel
      · intro k hk2 hklt
        rw [show k = (k - 1) + 1 by omega, sessionBelow_shift ts g0 (k - 1) (by omega)]
        exact hmin (k - 1) (by omega) (by omega)
      · unfold sessionTraj
        rw [Nat.add_comm 1 (Nat.find hex)]
        exact (Function.iterate_succ_apply _ _ _).symm
  · have hall : ∀ m, 1 ≤ m → m ≤ 4999 →
        ¬ maxVelocityDiff ((sessionStep ts)^[m] (sessionStep ts g0))
            (velocityFieldOf ((sessionStep ts)^[m - 1] (sessionStep ts g0))) <
              CONVERGENCE_THRESHOLD :=
      fun m h1 h2 hc => hex ⟨m, h1, h2, hc⟩
    have hloop := sessionLoop_no_conv ts 4999 (sessionStep ts g0) 1 hall
    rw [hstart, hloop]
    dsimp only
    refine ⟨?_, ?_, ?_⟩
    · show (1 + 4999 : ℕ) ≤ 5000
      omega
    · intro _
      refine ⟨rfl, ?_⟩
      intro k hk2 hk5
      have hk5b : k ≤ 5000 := hk5
      rw [show k = (k - 1) + 1 by omega, sessionBelow_shift ts g0 (k - 1) (by omega)]
      exact hall (k - 1) (by omega) (by omega)
    · intro htrue
      exact absurd htrue (by simp)

/-- Witness for C3: a session on the 1×1 zero grid stays within the step
ceiling. -/
theorem session_ceiling_and_convergence_witness :
    (runInteractiveSession (mkSimulationGrid 1 1) [] 0).steps ≤ MAX_STEPS :=
  (session_ceiling_and_convergence (mkSimulationGrid 1 1) [] 0).1

theorem heapWrite_length (σ : Heap) (r y x : ℕ) (val : CellValue) :
    (heapWrite σ r y x val).length = σ.length :=
  List.length_set σ r _

theorem heapRead_heapWrite_ne {σ : Heap} {r s : ℕ} (y x : ℕ) {a b : ℕ} (val : CellValue)
    (h : r ≠ s) : heapRead (heapWrite σ r y x val) s a b = heapRead σ s a b := by
  unfold heapRead heapWrite
  simp only [List.getD_eq_getElem?_getD]
  rw [List.getElem?_set_ne h]

theorem heapRead_heapWrite_same_cell {σ : Heap} {r : ℕ} (hr : r < σ.length) (y x : ℕ)
    (val : CellValue) : heapRead (heapWrite σ r y x val) r y x = val := by
  unfold heapRead heapWrite
  rw [List.getD_eq_getElem?_getD, List.getElem?_set_self (by simpa using hr)]
  simp

theorem heapRead_heapWrite_other_cell {σ : Heap} {r s : ℕ} {y x : ℕ} {a b : ℕ}
    {val : CellValue} (hab : ¬(a = y ∧ b = x)) :
    heapRead (heapWrite σ r y x val) s a b = heapRead σ s a b := by
  by_cases hrs : r = s
  · subst hrs
    by_cases hr : r < σ.length
    · unfold heapRead heapWrite
      rw [List.getD_eq_getElem?_getD, List.getElem?_set_self (by simpa using hr)]
      simp only [Option.getD_some]
      rw [if_neg hab, List.getD_eq_getElem?_getD]
    · unfold heapRead heapWrite
      rw [List.set_eq_of_length_le (by omega)]
  · exact heapRead_heapWrite_ne y x val hrs

theorem heapRead_append {σ τ : Heap} {r : ℕ} (h : r < σ.length) (a b : ℕ) :
    heapRead (σ ++ τ) r a b = heapRead σ r a b := by
  unfold heapRead
  rw [List.getD_eq_getElem?_getD, List.getD_eq_getElem?_getD, List.getElem?_append, if_pos h]

/-- The freshness facts holding right after `createSimulationGridH`
allocates the destination arrays for a copy: the source references all
point below `n`, the destination ones are `n .. n+3`, and the store
covers them. -/
def freshCopySetup (src dst : GridRefs) (n : ℕ) (σ : Heap) : Prop :=
  (src.pressure < n ∧ src.u < n ∧ src.v < n ∧ src.isObstacle < n) ∧
  (dst.pressure = n ∧ dst.u = n + 1 ∧ dst.v = n + 2 ∧ dst.isObstacle = n + 3) ∧
  n + 4 ≤ σ.length

theorem copyCell_length (src dst : GridRefs) (σ : Heap) (c : ℕ × ℕ) :
    (copyCell src dst σ c).length = σ.length := by
  unfold copyCell
  dsimp only
  rw [heapWrite_length, heapWrite_length, heapWrite_length, heapWrite_length]

theorem copyCell_setup {src dst : GridRefs} {n : ℕ} {σ : Heap} (c : ℕ × ℕ)
    (h : freshCopySetup src dst n σ) : freshCopySetup src dst n (copyCell src dst σ c) := by
  obtain ⟨hs, hd, hlen⟩ := h
  exact ⟨hs, hd, by rw [copyCell_length]; exact hlen⟩

theorem copyCell_read_notin {src dst : GridRefs} {n : ℕ} {σ : Heap} (c : ℕ × ℕ)
    (h : freshCopySetup src dst n σ) {r : ℕ} (hr : r < n) (a b : ℕ) :
    heapRead (copyCell src dst σ c) r a b = heapRead σ r a b := by
  obtain ⟨⟨hs1, hs2, hs3, hs4⟩, ⟨hd1, hd2, hd3, hd4⟩, hlen⟩ := h
  unfold copyCell
  dsimp only
  rw [heapRead_heapWrite_ne _ _ _ (by omega), heapRead_heapWrite_ne _ _ _ (by omega),
    heapRead_heapWrite_ne _ _ _ (by omega), heapRead_heapWrite_ne _ _ _ (by omega)]

theorem copyCell_read_other_cell {src dst : GridRefs} {σ : Heap} {c : ℕ × ℕ} {a b : ℕ}
    (hab : ¬(a = c.1 ∧ b = c.2)) (r : ℕ) :
    heapRead (copyCell src dst σ c) r a b = heapRead σ r a b := by
  unfold copyCell
  dsimp only
  rw [heapRead_heapWrite_other_cell hab, heapRead_heapWrite_other_cell hab,
    heapRead_heapWrite_other_cell hab, heapRead_heapWrite_other_cell hab]

theorem copyCell_read_dst {src dst : GridRefs} {n : ℕ} {σ : Heap} (c : ℕ × ℕ)
    (h : freshCopySetup src dst n σ) :
    heapRead (copyCell src dst σ c) dst.pressure c.1 c.2 = heapRead σ src.pressure c.1 c.2 ∧
    heapRead (copyCell src dst σ c) dst.u c.1 c.2 = heapRead σ src.u c.1 c.2 ∧
    heapRead (copyCell src dst σ c) dst.v c.1 c.2 = heapRead σ src.v c.1 c.2 ∧
    heapRead (copyCell src dst σ c) dst.isObstacle c.1 c.2 =
      heapRead σ src.isObstacle c.1 c.2 := by
  obtain ⟨⟨hs1, hs2, hs3, hs4⟩, ⟨hd1, hd2, hd3, hd4⟩, hlen⟩ := h
  unfold copyCell
  dsimp only
  refine ⟨?_, ?_, ?_, ?_⟩
  · rw [heapRead_heapWrite_ne _ _ _ (by omega), heapRead_heapWrite_ne _ _ _ (by omega),
      heapRead_heapWrite_ne _ _ _ (by omega), heapRead_heapWrite_same_cell (by omega) _ _]
  · rw [heapRead_heapWrite_ne _ _ _ (by omega), heapRead_heapWrite_ne _ _ _ (by omega),
      heapRead_heapWrite_same_cell (by rw [heapWrite_length]; omega) _ _,
      heapRead_heapWrite_ne _ _ _ (by omega)]
  · rw [heapRead_heapWrite_ne _ _ _ (by omega),
      heapRead_heapWrite_same_cell (by rw [heapWrite_length, heapWrite_length]; omega) _ _,
      heapRead_heapWrite_ne _ _ _ (by omega), heapRead_heapWrite_ne _ _ _ (by omega)]
  · rw [heapRead_heapWrite_same_cell
        (by rw [heapWrite_length, heapWrite_length, heapWrite_length]; omega) _ _,
      heapRead_heapWrite_ne _ _ _ (by omega), heapRead_heapWrite_ne _ _ _ (by omega),
      heapRead_heapWrite_ne _ _ _ (by omega)]

theorem foldl_copyCell_length (src dst : GridRefs) :
    ∀ (L : List (ℕ × ℕ)) (σ : Heap),
      (L.foldl (copyCell src dst) σ).length = σ.length := by
  intro L
  induction L with
  | nil => intro σ; rfl
  | cons c L ih =>
    intro σ
    show (L.foldl (copyCell src dst) (copyCell src dst σ c)).length = σ.length
    rw [ih, copyCell_length]

theorem foldl_copyCell_read_notin {src dst : GridRefs} {n : ℕ} :
    ∀ (L : List (ℕ × ℕ)) (σ : Heap), freshCopySetup src dst n σ →
      ∀ {r : ℕ}, r < n → ∀ (a b : ℕ),
      heapRead (L.foldl (copyCell src dst) σ) r a b = heapRead σ r a b := by
  intro L
  induction L with
  | nil => intro σ h r hr a b; rfl
  | cons c L ih =>
    intro σ h r hr a b
    show heapRead (L.foldl (copyCell src dst) (copyCell src dst σ c)) r a b = _
    rw [ih (copyCell src dst σ c) (copyCell_setup c h) hr a b, copyCell_read_notin c h hr]

theorem foldl_copyCell_read_untouched {src dst : GridRefs} :
    ∀ (L : List (ℕ × ℕ)) (σ : Heap) {a b : ℕ}, (a, b) ∉ L → ∀ (r : ℕ),
      heapRead (L.foldl (copyCell src dst) σ) r a b = heapRead σ r a b := by
  intro L
  induction L with
  | nil => intro σ a b hm r; rfl
  | cons c L ih =>
    intro σ a b hm r
    show heapRead (L.foldl (copyCell src dst) (copyCell src dst σ c)) r a b = _
    rw [ih (copyCell src dst σ c) (fun hmem => hm (List.mem_cons_of_mem c hmem)) r]
    refine copyCell_read_other_cell (fun hab => ?_) r
    refine hm ?_
    rw [show ((a : ℕ), (b : ℕ)) = c from Prod.ext hab.1 hab.2]
    exact List.mem_cons_self c L

theorem foldl_copyCell_read_dst {src dst : GridRefs} {n : ℕ} :
    ∀ (L : List (ℕ × ℕ)) (σ : Heap), freshCopySetup src dst n σ →
      ∀ {a b : ℕ}, (a, b) ∈ L →
      heapRead (L.foldl (copyCell src dst) σ) dst.pressure a b =
        heapRead σ src.pressure a b ∧
      heapRead (L.foldl (copyCell src dst) σ) dst.u a b = heapRead σ src.u a b ∧
      heapRead (L.foldl (copyCell src dst) σ) dst.v a b = heapRead σ src.v a b ∧
      heapRead (L.foldl (copyCell src dst) σ) dst.isObstacle a b =
        heapRead σ src.isObstacle a b := by
  intro L
  induction L with
  | nil => intro σ h a b hm; exact absurd hm (List.not_mem_nil _)
  | cons c L ih =>
    intro σ h a b hm
    obtain ⟨⟨hs1, hs2, hs3, hs4⟩, ⟨hd1, hd2, hd3, hd4⟩, hlen⟩ := h
    have h2 : freshCopySetup src dst n σ :=
      ⟨⟨hs1, hs2, hs3, hs4⟩, ⟨hd1, hd2, hd3, hd4⟩, hlen⟩
    simp only [List.foldl_cons]
    by_cases hL : (a, b) ∈ L
    · have hfold := ih (copyCell src dst σ c) (copyCell_setup c h2) hL
      refine ⟨?_, ?_, ?_, ?_⟩
      · rw [hfold.1, copyCell_read_notin c h2 (by omega)]
      · rw [hfold.2.1, copyCell_read_notin c h2 (by omega)]
      · rw [hfold.2.2.1, copyCell_read_notin c h2 (by omega)]
      · rw [hfold.2.2.2, copyCell_read_notin c h2 (by omega)]
    · have hceq : c = (a, b) := by
        rcases List.mem_cons.1 hm with heq | hmem
        · exact heq.symm
        · exact absurd hmem hL
      subst hceq
      have hcell := copyCell_read_dst (n := n) (a, b) h2
      dsimp only at hcell
      rw [foldl_copyCell_read_untouched L _ hL dst.pressure,
        foldl_copyCell_read_untouched L _ hL dst.u,
        foldl_copyCell_read_untouched L _ hL dst.v,
        foldl_copyCell_read_untouched L _ hL dst.isObstacle]
      exact hcell

theorem createSimulationGridH_eq (w h : ℕ) (σ : Heap) :
    createSimulationGridH w h σ =
      (σ ++ [emptyCells (.num 0), emptyCells (.num 0), emptyCells (.num 0),
        emptyCells (.flag false)],
       { width := w, height := h, pressure := σ.length, u := σ.length + 1,
         v := σ.length + 2, isObstacle := σ.length + 3 }) := by
  unfold createSimulationGridH heapAlloc
  dsimp only
  simp [List.length_append, List.append_assoc]

/-- C9: `copySimulationGrid`, modelled on an explicit heap, returns a grid
with the same dimensions whose four arrays are freshly allocated (their
references differ from all of the original grid references), hold the same
cell values inside the `height × width` extent, and leave the original
untouched; writing through any reference of the copy never changes a cell
read through the original, and vice versa. -/
theorem copySimulationGridH_deep_copy (σ : Heap) (g : GridRefs) (hv : g.valid σ) :
    ((copySimulationGridH σ g).2.width = g.width ∧
      (copySimulationGridH σ g).2.height = g.height) ∧
    (∀ y x : ℕ, y < g.height → x < g.width →
      heapRead (copySimulationGridH σ g).1 (copySimulationGridH σ g).2.pressure y x =
        heapRead σ g.pressure y x ∧
      heapRead (copySimulationGridH σ g).1 (copySimulationGridH σ g).2.u y x =
        heapRead σ g.u y x ∧
      heapRead (copySimulationGridH σ g).1 (copySimulationGridH σ g).2.v y x =
        heapRead σ g.v y x ∧
      heapRead (copySimulationGridH σ g).1 (copySimulationGridH σ g).2.isObstacle y x =
        heapRead σ g.isObstacle y x) ∧
    (∀ r ∈ (copySimulationGridH σ g).2.refs, ∀ s ∈ g.refs, r ≠ s) ∧
    (∀ r ∈ g.refs, ∀ a b : ℕ,
      heapRead (copySimulationGridH σ g).1 r a b = heapRead σ r a b) ∧
    (∀ r ∈ (copySimulationGridH σ g).2.refs, ∀ (y x : ℕ) (val : CellValue),
      ∀ s ∈ g.refs, ∀ a b : ℕ,
      heapRead (heapWrite (copySimulationGridH σ g).1 r y x val) s a b =
        heapRead (copySimulationGridH σ g).1 s a b) ∧
    (∀ s ∈ g.refs, ∀ (y x : ℕ) (val : CellValue),
      ∀ r ∈ (copySimulationGridH σ g).2.refs, ∀ a b : ℕ,
      heapRead (heapWrite (copySimulationGridH σ g).1 s y x val) r a b =
        heapRead (copySimulationGridH σ g).1 r a b) := by
  obtain ⟨hv1, hv2, hv3, hv4⟩ := hv
  have hcopy : copySimulationGridH σ g =
      ((gridCells g.height g.width).foldl
        (copyCell g
          { width := g.width, height := g.height, pressure := σ.length,
            u := σ.length + 1, v := σ.length + 2, isObstacle := σ.length + 3 })
        (σ ++ [emptyCells (.num 0), emptyCells (.num 0), emptyCells (.num 0),
          emptyCells (.flag false)]),
       { width := g.width, height := g.height, pressure := σ.length, u := σ.length + 1,
         v := σ.length + 2, isObstacle := σ.length + 3 }) := by
    unfold copySimulationGridH
    rw [createSimulationGridH_eq]
  rw [hcopy]
  dsimp only
  have hsetup : freshCopySetup g
      { width := g.width, height := g.height, pressure := σ.length, u := σ.length + 1,
        v := σ.length + 2, isObstacle := σ.length + 3 } σ.length
      (σ ++ [emptyCells (.num 0), emptyCells (.num 0), emptyCells (.num 0),
        emptyCells (.flag false)]) :=
    ⟨⟨hv1, hv2, hv3, hv4⟩, ⟨rfl, rfl, rfl, rfl⟩, by simp [List.length_append]⟩
  refine ⟨⟨rfl, rfl⟩, ?_, ?_, ?_, ?_, ?_⟩
  · intro y x hy hx
    have hmem : (y, x) ∈ gridCells g.height g.width := by
      unfold gridCells
      simp only [List.mem_flatMap, List.mem_map, List.mem_range]
      exact ⟨y, hy, x, hx, rfl⟩
    have h4 := foldl_copyCell_read_dst (n := σ.length) (gridCells g.height g.width) _
      hsetup hmem
    dsimp only at h4
    exact ⟨h4.1.trans (heapRead_append hv1 y x), h4.2.1.trans (heapRead_append hv2 y x),
      h4.2.2.1.trans (heapRead_append hv3 y x), h4.2.2.2.trans (heapRead_append hv4 y x)⟩
  · intro r hr s hs
    simp only [GridRefs.refs, List.mem_cons, List.not_mem_nil, or_false] at hr hs
    rcases hr with rfl | rfl | rfl | rfl <;> rcases hs with rfl | rfl | rfl | rfl <;> omega
  · intro r hr a b
    simp only [GridRefs.refs, List.mem_cons, List.not_mem_nil, or_false] at hr
    have hrlt : r < σ.length := by rcases hr with rfl | rfl | rfl | rfl <;> omega
    rw [foldl_copyCell_read_notin (gridCells g.height g.width) _ hsetup hrlt a b,
      heapRead_append hrlt]
  · intro r hr y x val s hs a b
    simp only [GridRefs.refs, List.mem_cons, List.not_mem_nil, or_false] at hr hs
    refine heapRead_heapWrite_ne y x val ?_
    rcases hr with rfl | rfl | rfl | rfl <;> rcases hs with rfl | rfl | rfl | rfl <;> omega
  · intro s hs y x val r hr a b
    simp only [GridRefs.refs, List.mem_cons, List.not_mem_nil, or_false] at hr hs
    refine heapRead_heapWrite_ne y x val ?_
    rcases hs with rfl | rfl | rfl | rfl <;> rcases hr with rfl | rfl | rfl | rfl <;> omega

/-- Witness for C9: the copy of a concrete 2×2 heap grid has a fresh
pressure array. -/
theorem copySimulationGridH_deep_copy_witness :
    (copySimulationGridH (createSimulationGridH 2 2 []).1
        (createSimulationGridH 2 2 []).2).2.pressure ≠
      (createSimulationGridH 2 2 []).2.pressure :=
  copySimulationGridH_deep_copy (createSimulationGridH 2 2 []).1
      (createSimulationGridH 2 2 []).2 (by decide) |>.2.2.1 _
    (by simp [GridRefs.refs]) _ (by simp [GridRefs.refs])

end FlowSim
